import Mathlib

/-!
Verification of the txaws credential-loading, request-signing and
connection/error-normalization behaviour, as a shallow embedding of
`txaws/credentials.py` together with the connection layer described by the
design document (`txaws.client.base`, `txaws.client.ssl`, `txaws.service`
are exercised by `txaws/client/tests/test_client.py`).

Python strings are Lean `String`s, byte strings are `List Nat` with every
element below 256, and the ambient process state (environment variables and
the readable part of the filesystem) is passed explicitly as an `Env`
record.  Exceptions become an explicit `Except` error channel whose error
values remember which Python exception class was raised, so that statements
about `except` clauses (which catch by class, including subclasses) can be
made.
-/

/-- Python exception classes relevant to the embedded code, one constructor
per class.  `CompatCredentialsNotFoundError` embeds
`txaws.credentials._CompatCredentialsNotFoundError`; the configparser
classes embed the standard library's `ConfigParser` errors raised by
`SafeConfigParser.get`. -/
inductive PyClass where
  | Exception
  | StandardError
  | ValueError
  | RuntimeError
  | CredentialsNotFoundError
  | CompatCredentialsNotFoundError
  | ConfigParserError
  | NoSectionError
  | NoOptionError
  deriving DecidableEq, Repr

/-- Transitive-reflexive ancestors (method resolution order, minus `object`)
of each class.  `_CompatCredentialsNotFoundError(CredentialsNotFoundError,
ValueError)` is declared in `txaws/credentials.py`; `CredentialsNotFoundError`
derives from `Exception` (its module `txaws.exception` is outside the staged
sources; modelled from the spec's taxonomy, which presents it as a plain
error class); the Python 2 built-ins satisfy
`ValueError < StandardError < Exception` and
`RuntimeError < StandardError < Exception`; the `ConfigParser` errors derive
from that module's `Error`, itself an `Exception`. -/
def PyClass.ancestors : PyClass → List PyClass
  | .Exception => [.Exception]
  | .StandardError => [.StandardError, .Exception]
  | .ValueError => [.ValueError, .StandardError, .Exception]
  | .RuntimeError => [.RuntimeError, .StandardError, .Exception]
  | .CredentialsNotFoundError => [.CredentialsNotFoundError, .Exception]
  | .CompatCredentialsNotFoundError =>
      [.CompatCredentialsNotFoundError, .CredentialsNotFoundError, .ValueError,
       .StandardError, .Exception]
  | .ConfigParserError => [.ConfigParserError, .Exception]
  | .NoSectionError => [.NoSectionError, .ConfigParserError, .Exception]
  | .NoOptionError => [.NoOptionError, .ConfigParserError, .Exception]

/-- `isSubclass c d` holds when an instance of class `c` is caught by an
`except d:` clause, i.e. `d` is an ancestor of `c`. -/
def PyClass.isSubclass (c d : PyClass) : Bool :=
  c.ancestors.contains d

/-- Errors the embedded credential and signing code can raise.  Each
constructor records the exception's constructor arguments (its message). -/
inductive PyError where
  | credentialsNotFound (msg : String)
  | noSection (sect : String)
  | noOption (sect opt : String)
  | runtimeError (msg : String)
  deriving DecidableEq, Repr

/-- The Python class of each raised error.  `credentialsNotFound` carries
class `_CompatCredentialsNotFoundError` because that is the class the
`raise` statement in `_load_shared_credentials` names. -/
def PyError.cls : PyError → PyClass
  | .credentialsNotFound _ => .CompatCredentialsNotFoundError
  | .noSection _ => .NoSectionError
  | .noOption _ _ => .NoOptionError
  | .runtimeError _ => .RuntimeError

/-- An INI-style configuration file as `SafeConfigParser` parses it: an
ordered association of section names to ordered associations of option names
to values. -/
structure IniFile where
  sections : List (String × List (String × String))
  deriving DecidableEq, Repr

/-- `SafeConfigParser.get(section, option)`: raises `NoSectionError` when the
section is absent, `NoOptionError` when the option is absent from the
section. -/
def IniFile.get (cfg : IniFile) (sect opt : String) : Except PyError String :=
  match cfg.sections.find? (fun p => p.1 == sect) with
  | none => .error (.noSection sect)
  | some (_, opts) =>
    match opts.find? (fun p => p.1 == opt) with
    | none => .error (.noOption sect opt)
    | some (_, v) => .ok v

/-- The ambient process state `txaws/credentials.py` reads: `vars` is
`os.environ` (`none` = unset), and `files p` is the parsed content of the
INI file at path `p` when `SafeConfigParser.read([p])` can read and parse
it, `none` when it cannot (missing or unreadable, in which case `read`
returns the empty list).  `~` expansion is folded into the path strings. -/
structure Env where
  vars : String → Option String
  files : String → Option IniFile

def ENV_ACCESS_KEY : String := "AWS_ACCESS_KEY_ID"

def ENV_SECRET_KEY : String := "AWS_SECRET_ACCESS_KEY"

def ENV_SHARED_CREDENTIALS_FILE : String := "AWS_SHARED_CREDENTIALS_FILE"

/-- Python truthiness of an optional string (`if not x:` on a value that is
either `None` or a `str`): `None` and the empty string are falsy. -/
def truthy : Option String → Bool
  | none => false
  | some s => !(s == "")

/-- The path `_load_shared_credentials` consults:
`os.environ.get(ENV_SHARED_CREDENTIALS_FILE, os.path.expanduser("~/.aws/credentials"))`. -/
def credentialsPath (e : Env) : String :=
  (e.vars ENV_SHARED_CREDENTIALS_FILE).getD "~/.aws/credentials"

/-- `txaws.credentials._load_shared_credentials`: reads the shared
credentials file; when `config.read` reads nothing it raises
`_CompatCredentialsNotFoundError`, otherwise it returns the parsed file. -/
def load_shared_credentials (e : Env) : Except PyError IniFile :=
  match e.files (credentialsPath e) with
  | none => .error (.credentialsNotFound
      "Could not find credentials in the environment or filesystem")
  | some config => .ok config

/-- One credential slot of `AWSCredentials.__init__` (the body performs this
resolution once for the access key and once for the secret key): a truthy
explicit argument is used as-is; otherwise the named environment variable is
consulted; when that is also falsy the value is fetched from the `default`
section of the shared credentials file. -/
def resolveCredential (e : Env) (given : Option String) (envName optName : String) :
    Except PyError String :=
  if truthy given then .ok (given.getD "")
  else
    let fromEnv := e.vars envName
    if truthy fromEnv then .ok (fromEnv.getD "")
    else
      match load_shared_credentials e with
      | .error err => .error err
      | .ok config => config.get "default" optName

/-- The resolved credential pair (`self.access_key`, `self.secret_key`). -/
structure AWSCredentials where
  access_key : String
  secret_key : String
  deriving DecidableEq, Repr

/-- `AWSCredentials.__init__(access_key="", secret_key="")`: resolves the
access key (explicit argument, then `AWS_ACCESS_KEY_ID`, then
`aws_access_key_id` of the file's `default` section), then the secret key
(explicit argument, then `AWS_SECRET_ACCESS_KEY`, then
`aws_secret_access_key`); the first raised exception propagates. -/
def AWSCredentials.make (e : Env) (access_key secret_key : Option String) :
    Except PyError AWSCredentials :=
  match resolveCredential e access_key ENV_ACCESS_KEY "aws_access_key_id" with
  | .error err => .error err
  | .ok a =>
    match resolveCredential e secret_key ENV_SECRET_KEY "aws_secret_access_key" with
    | .error err => .error err
    | .ok s => .ok { access_key := a, secret_key := s }

/-- Both falsiness tests of one resolution failed: the explicit argument and
the environment variable are each `None` or empty, so the shared credentials
file is consulted. -/
def fallsThrough (e : Env) (given : Option String) (envName : String) : Bool :=
  !(truthy given) && !(truthy (e.vars envName))

/-!
Modelled from the spec: `txaws.util.hmac_sha256` and `txaws.util.hmac_sha1`
(module `txaws/util.py` is outside the staged sources).  The spec describes
the signing operation as "HMAC-SHA256 or HMAC-SHA1" of the byte payload
under the secret key, so the two message-authentication codes are
implemented here in full (FIPS 180-4 SHA-256 and SHA-1 over byte lists,
RFC 2104 HMAC with the 64-byte block size shared by both hash functions);
a signature is the digest's byte list.
-/

/-- Arithmetic modulus of a 32-bit word. -/
def M32 : Nat := 4294967296

/-- Right rotation of a 32-bit word by `n` places. -/
def rotr32 (n x : Nat) : Nat :=
  ((x >>> n) ||| (x <<< (32 - n))) % M32

/-- Left rotation of a 32-bit word by `n` places. -/
def rotl32 (n x : Nat) : Nat :=
  ((x <<< n) ||| (x >>> (32 - n))) % M32

/-- Big-endian 4-byte encoding of a 32-bit word. -/
def be32 (n : Nat) : List Nat :=
  [(n >>> 24) % 256, (n >>> 16) % 256, (n >>> 8) % 256, n % 256]

/-- Big-endian 8-byte encoding of a 64-bit length. -/
def be64 (n : Nat) : List Nat :=
  [(n >>> 56) % 256, (n >>> 48) % 256, (n >>> 40) % 256, (n >>> 32) % 256,
   (n >>> 24) % 256, (n >>> 16) % 256, (n >>> 8) % 256, n % 256]

/-- Big-endian grouping of bytes into 32-bit words. -/
def toWordsBE : List Nat → List Nat
  | b3 :: b2 :: b1 :: b0 :: rest =>
      ((b3 <<< 24) ||| (b2 <<< 16) ||| (b1 <<< 8) ||| b0) :: toWordsBE rest
  | _ => []

/-- Merkle–Damgård padding shared by SHA-1 and SHA-256: a `0x80` byte, zero
bytes up to 56 modulo 64, then the bit length as a big-endian 64-bit
integer. -/
def padMessage (msg : List Nat) : List Nat :=
  msg ++ 128 :: List.replicate ((119 - msg.length % 64) % 64) 0 ++ be64 (8 * msg.length)

/-- Splits a byte list into 64-byte blocks. -/
def chunks64 (l : List Nat) : List (List Nat) :=
  if h : l = [] then []
  else
    have : l.length - 64 < l.length := by
      have : 0 < l.length := List.length_pos.mpr h
      omega
    l.take 64 :: chunks64 (l.drop 64)
termination_by l.length
decreasing_by simpa [List.length_drop] using this

/-- SHA-256 round constants (FIPS 180-4 section 4.2.2), in decimal. -/
def sha256K : List Nat :=
  [1116352408, 1899447441, 3049323471, 3921009573, 961987163,
   1508970993, 2453635748, 2870763221, 3624381080, 310598401,
   607225278, 1426881987, 1925078388, 2162078206, 2614888103,
   3248222580, 3835390401, 4022224774, 264347078, 604807628,
   770255983, 1249150122, 1555081692, 1996064986, 2554220882,
   2821834349, 2952996808, 3210313671, 3336571891, 3584528711,
   113926993, 338241895, 666307205, 773529912, 1294757372,
   1396182291, 1695183700, 1986661051, 2177026350, 2456956037,
   2730485921, 2820302411, 3259730800, 3345764771, 3516065817,
   3600352804, 4094571909, 275423344, 430227734, 506948616,
   659060556, 883997877, 958139571, 1322822218, 1537002063,
   1747873779, 1955562222, 2024104815, 2227730452, 2361852424,
   2428436474, 2756734187, 3204031479, 3329325298]

/-- SHA-256 initial hash value, in decimal. -/
def sha256Init : List Nat :=
  [1779033703, 3144134277, 1013904242, 2773480762,
   1359893119, 2600822924, 528734635, 1541459225]

/-- SHA-256 message schedule: extends a block's 16 words to 64. -/
def sha256Schedule (w16 : List Nat) : List Nat :=
  let step := fun (w : Array Nat) (_ : Nat) =>
    let n := w.size
    let s0 :=
      rotr32 7 (w.get! (n - 15)) ^^^ rotr32 18 (w.get! (n - 15)) ^^^
        (w.get! (n - 15)) >>> 3
    let s1 :=
      rotr32 17 (w.get! (n - 2)) ^^^ rotr32 19 (w.get! (n - 2)) ^^^
        (w.get! (n - 2)) >>> 10
    w.push ((w.get! (n - 16) + s0 + w.get! (n - 7) + s1) % M32)
  ((List.range 48).foldl step w16.toArray).toList

/-- One SHA-256 round on the eight-word working state. -/
def sha256Round (st : List Nat) (kw : Nat × Nat) : List Nat :=
  match st with
  | [a, b, c, d, e, f, g, h] =>
    let S1 := rotr32 6 e ^^^ rotr32 11 e ^^^ rotr32 25 e
    let ch := (e &&& f) ^^^ ((4294967295 ^^^ e) &&& g)
    let t1 := (h + S1 + ch + kw.1 + kw.2) % M32
    let S0 := rotr32 2 a ^^^ rotr32 13 a ^^^ rotr32 22 a
    let maj := (a &&& b) ^^^ (a &&& c) ^^^ (b &&& c)
    let t2 := (S0 + maj) % M32
    [(t1 + t2) % M32, a, b, c, (d + t1) % M32, e, f, g]
  | other => other

/-- SHA-256 compression of one 64-byte block into the hash state. -/
def sha256Compress (h : List Nat) (block : List Nat) : List Nat :=
  let w := sha256Schedule (toWordsBE block)
  let st := (sha256K.zip w).foldl sha256Round h
  List.zipWith (fun x y => (x + y) % M32) h st

/-- SHA-256 digest of a byte list, as a 32-byte list. -/
def sha256 (msg : List Nat) : List Nat :=
  let final := (chunks64 (padMessage msg)).foldl sha256Compress sha256Init
  final.foldr (fun w acc => be32 w ++ acc) []

/-- SHA-1 initial hash value, in decimal. -/
def sha1Init : List Nat :=
  [1732584193, 4023233417, 2562383102, 271733878, 3285377520]

/-- SHA-1 message schedule: extends a block's 16 words to 80. -/
def sha1Schedule (w16 : List Nat) : List Nat :=
  let step := fun (w : Array Nat) (_ : Nat) =>
    let n := w.size
    w.push (rotl32 1
      (w.get! (n - 3) ^^^ w.get! (n - 8) ^^^ w.get! (n - 14) ^^^ w.get! (n - 16)))
  ((List.range 64).foldl step w16.toArray).toList

/-- One SHA-1 round; `iw` is the round index paired with the schedule word. -/
def sha1Round (st : List Nat) (iw : Nat × Nat) : List Nat :=
  match st with
  | [a, b, c, d, e] =>
    let t := iw.1
    let f :=
      if t < 20 then (b &&& c) ||| ((4294967295 ^^^ b) &&& d)
      else if t < 40 then b ^^^ c ^^^ d
      else if t < 60 then (b &&& c) ||| (b &&& d) ||| (c &&& d)
      else b ^^^ c ^^^ d
    let k :=
      if t < 20 then 1518500249
      else if t < 40 then 1859775393
      else if t < 60 then 2400959708
      else 3395469782
    let temp := (rotl32 5 a + f + e + k + iw.2) % M32
    [temp, a, rotl32 30 b, c, d]
  | other => other

/-- SHA-1 compression of one 64-byte block into the hash state. -/
def sha1Compress (h : List Nat) (block : List Nat) : List Nat :=
  let w := sha1Schedule (toWordsBE block)
  let st := ((List.range 80).zip w).foldl sha1Round h
  List.zipWith (fun x y => (x + y) % M32) h st

/-- SHA-1 digest of a byte list, as a 20-byte list. -/
def sha1 (msg : List Nat) : List Nat :=
  let final := (chunks64 (padMessage msg)).foldl sha1Compress sha1Init
  final.foldr (fun w acc => be32 w ++ acc) []

/-- RFC 2104 HMAC over a hash function with 64-byte blocks: a key longer
than the block is first hashed, the key is zero-padded to the block size,
and the digest is `hash(opad-key ++ hash(ipad-key ++ msg))`. -/
def hmac (hash : List Nat → List Nat) (key msg : List Nat) : List Nat :=
  let k0 := if 64 < key.length then hash key else key
  let k := k0 ++ List.replicate (64 - k0.length) 0
  hash ((k.map (fun b => b ^^^ 0x5c)) ++ hash ((k.map (fun b => b ^^^ 0x36)) ++ msg))

/-- Bytes of an ASCII string (the secret keys and hash-type names in play
are ASCII). -/
def strBytes (s : String) : List Nat :=
  s.data.map Char.toNat

/-- Modelled from the spec: `txaws.util.hmac_sha256(secret, data)` — the
HMAC-SHA256 code of `data` under `secret`. -/
def hmac_sha256 (secret : String) (data : List Nat) : List Nat :=
  hmac sha256 (strBytes secret) data

/-- Modelled from the spec: `txaws.util.hmac_sha1(secret, data)` — the
HMAC-SHA1 code of `data` under `secret`. -/
def hmac_sha1 (secret : String) (data : List Nat) : List Nat :=
  hmac sha1 (strBytes secret) data

/-- `AWSCredentials.sign(bytes, hash_type="sha256")`: dispatches on the hash
algorithm name and raises `RuntimeError` on any unsupported name (the
source's message interpolates the name: `Unsupported hash type: ...`). -/
def AWSCredentials.sign (c : AWSCredentials) (bytes : List Nat)
    (hash_type : String) : Except PyError (List Nat) :=
  if hash_type = "sha256" then .ok (hmac_sha256 c.secret_key bytes)
  else if hash_type = "sha1" then .ok (hmac_sha1 c.secret_key bytes)
  else .error (.runtimeError ("Unsupported hash type: " ++ hash_type))

/-!
Modelled from the spec: the outbound-connection layer (`txaws.service`,
`txaws.client.base` and `txaws.client.ssl` are outside the staged sources;
only their unit tests, `txaws/client/tests/test_client.py`, are staged).
The endpoint descriptor, the connection factory's three-way dispatch and
port defaults, the error normalizer's state machine, and the query's
header accessors follow the design document's sections 3, 4.3, 4.4 and
4.5, with the staged unit tests fixing the concrete observable values.
-/

/-- A trusted certificate, identified by its PEM text. -/
abbrev Certificate := String

/-- URL scheme of an endpoint. -/
inductive Scheme where
  | http
  | https
  deriving DecidableEq, Repr

/-- Modelled from the spec: the endpoint descriptor (`AWSServiceEndpoint`),
`{scheme, host, port, verify_hostname}`; `port = none` when the port is not
explicit in the endpoint.  The verification flag keeps the name the staged
tests use, `ssl_hostname_verification`. -/
structure AWSServiceEndpoint where
  scheme : Scheme
  host : String
  port : Option Nat
  ssl_hostname_verification : Bool
  deriving DecidableEq, Repr

/-- Default ports: 80 for http, 443 for https. -/
def defaultPort : Scheme → Nat
  | .http => 80
  | .https => 443

/-- The port a connection to the endpoint uses: the explicit one when
present, otherwise the scheme's default. -/
def resolvePort (ep : AWSServiceEndpoint) : Nat :=
  ep.port.getD (defaultPort ep.scheme)

/-- Modelled from the spec: the verifying TLS context
(`txaws.client.ssl.VerifyingContextFactory`), carrying the hostname the
Hostname/SAN Verifier is bound to and the trust store's certificate set
(the staged test reads both as `factory.host` and `factory.caCerts`). -/
structure VerifyingContextFactory where
  host : String
  caCerts : List Certificate
  deriving DecidableEq, Repr

/-- Modelled from the spec: the connector the connection factory returns —
plain transport for http, a verifying TLS connector for https with
verification enabled, and a TLS connector that skips identity verification
for https with verification disabled. -/
inductive Connector where
  | plain (host : String) (port : Nat)
  | verifying (host : String) (port : Nat) (factory : VerifyingContextFactory)
  | noVerify (host : String) (port : Nat)
  deriving DecidableEq, Repr

/-- Modelled from the spec: the connection factory's `connect(endpoint)`
dispatch (section 4.3), given the trust store's current certificate set. -/
def connect (caCerts : List Certificate) (ep : AWSServiceEndpoint) : Connector :=
  match ep.scheme with
  | .http => .plain ep.host (resolvePort ep)
  | .https =>
    if ep.ssl_hostname_verification then
      .verifying ep.host (resolvePort ep) ⟨ep.host, caCerts⟩
    else
      .noVerify ep.host (resolvePort ep)

/-- Modelled from the spec: the heterogeneous failure conditions the error
normalizer receives (section 4.5's input column).  An HTTP status failure
renders as `<code> <message>` (`twisted.web.error.Error.__str__`). -/
inductive AWSFailure where
  | httpStatus (code : Nat) (message : String)
  | connectionRefused (cause : String)
  | ioTimeout (cause : String)
  | tlsRejected (reason : String)
  | transportFailure (cause : String)
  deriving DecidableEq, Repr

/-- String rendering of a failure (its `str()`). -/
def AWSFailure.render : AWSFailure → String
  | .httpStatus code message => toString code ++ " " ++ message
  | .connectionRefused cause => cause
  | .ioTimeout cause => cause
  | .tlsRejected reason => reason
  | .transportFailure cause => cause

/-- Modelled from the spec: the error normalizer's single output value
(section 4.5's output column), either a successful completion carrying a
body or one of the normalized error kinds. -/
inductive Outcome where
  | success (body : String)
  | httpStatusError (code : Nat) (message : String)
  | connectionError (cause : String)
  | timeoutError (cause : String)
  | tlsVerificationError (reason : String)
  | transportError (cause : String)
  deriving DecidableEq, Repr

/-- String rendering of a normalized outcome (the error's `str()`). -/
def Outcome.render : Outcome → String
  | .success body => body
  | .httpStatusError code message => toString code ++ " " ++ message
  | .connectionError cause => cause
  | .timeoutError cause => cause
  | .tlsVerificationError reason => reason
  | .transportError cause => cause

/-- Whether the normalized outcome is a successful completion. -/
def Outcome.isSuccess : Outcome → Bool
  | .success _ => true
  | _ => false

/-- Modelled from the spec: `txaws.client.base.error_wrapper`, the error
normalizer's state machine (section 4.5): HTTP status 204 completes
successfully (the staged test `test_204_no_content` fixes the completion
value as the original failure's rendering, `204 No content`); an HTTP
status in 300–599 other than 204 becomes `HttpStatusError{code, message}`;
connection refusal, timeout and TLS rejection map to their dedicated error
kinds; anything else passes through as `TransportError` preserving the
original cause. -/
def error_wrapper : AWSFailure → Outcome
  | .httpStatus code message =>
    if code = 204 then .success (AWSFailure.render (.httpStatus code message))
    else if 300 ≤ code ∧ code ≤ 599 then .httpStatusError code message
    else .transportError (AWSFailure.render (.httpStatus code message))
  | .connectionRefused cause => .connectionError cause
  | .ioTimeout cause => .timeoutError cause
  | .tlsRejected reason => .tlsVerificationError reason
  | .transportFailure cause => .transportError cause

/-- Modelled from the spec: the response metadata a completed exchange
captures (section 3), extended with the request headers the staged tests
query through `get_request_headers`. -/
structure ResponseMetadata where
  status_code : Nat
  request_headers : List (String × String)
  response_headers : List (String × String)
  body : String
  deriving DecidableEq, Repr

/-- Modelled from the spec: `txaws.client.base.BaseQuery`, reduced to the
state the header-accessor claims observe — the constructor arguments and
the optional response metadata, absent until execution completes. -/
structure BaseQuery where
  action : String
  creds : String
  endpoint : String
  response : Option ResponseMetadata
  deriving DecidableEq, Repr

/-- `BaseQuery(action, creds, endpoint)`: a freshly constructed query has no
captured response metadata. -/
def BaseQuery.make (action creds endpoint : String) : BaseQuery :=
  { action := action, creds := creds, endpoint := endpoint, response := none }

/-- Completion of the exchange: the response metadata is captured. -/
def BaseQuery.complete (q : BaseQuery) (m : ResponseMetadata) : BaseQuery :=
  { q with response := some m }

/-- `get_request_headers()`: absent before completion, the captured request
headers after. -/
def BaseQuery.get_request_headers (q : BaseQuery) : Option (List (String × String)) :=
  q.response.map (fun m => m.request_headers)

/-- `get_response_headers()`: absent before completion, the captured
response headers after. -/
def BaseQuery.get_response_headers (q : BaseQuery) : Option (List (String × String)) :=
  q.response.map (fun m => m.response_headers)

/-!
Helper lemmas about the credential-resolution code, shared by the claims
below.
-/

/-- A truthy explicit argument is used as-is. -/
lemma resolve_given {e : Env} {given : Option String} {envName optName : String}
    (h : truthy given = true) :
    resolveCredential e given envName optName = .ok (given.getD "") := by
  simp [resolveCredential, h]

/-- With a falsy explicit argument and a truthy environment variable, the
environment variable's value is used. -/
lemma resolve_env {e : Env} {given : Option String} {envName optName : String}
    (h1 : truthy given = false) (h2 : truthy (e.vars envName) = true) :
    resolveCredential e given envName optName = .ok ((e.vars envName).getD "") := by
  simp [resolveCredential, h1, h2]

/-- With both the explicit argument and the environment variable falsy, the
shared credentials file decides. -/
lemma resolve_fileBranch {e : Env} {given : Option String} {envName optName : String}
    (h1 : truthy given = false) (h2 : truthy (e.vars envName) = false) :
    resolveCredential e given envName optName =
      match load_shared_credentials e with
      | .error err => .error err
      | .ok config => config.get "default" optName := by
  simp [resolveCredential, h1, h2]

/-- `fallsThrough` unpacked into its two falsiness facts. -/
lemma fallsThrough_iff {e : Env} {given : Option String} {envName : String} :
    fallsThrough e given envName = true ↔
      truthy given = false ∧ truthy (e.vars envName) = false := by
  simp [fallsThrough]

/-- `SafeConfigParser.get` never raises `CredentialsNotFoundError`: its
errors are `NoSectionError` and `NoOptionError`. -/
lemma get_ne_credentialsNotFound (cfg : IniFile) (sect opt msg : String) :
    cfg.get sect opt ≠ .error (.credentialsNotFound msg) := by
  rcases hfind : cfg.sections.find? (fun p => p.1 == sect) with _ | pr
  · simp [IniFile.get, hfind]
  · rcases pr with ⟨name, opts⟩
    rcases hopt : opts.find? (fun q => q.1 == opt) with _ | qv
    · simp [IniFile.get, hfind, hopt]
    · simp [IniFile.get, hfind, hopt]

/-- A resolution that does not fall through to the file never raises. -/
lemma resolve_ok_of_not_falls {e : Env} {given : Option String} {envName : String}
    (optName : String) (h : fallsThrough e given envName = false) :
    ∃ v, resolveCredential e given envName optName = .ok v := by
  cases h1 : truthy given with
  | true => exact ⟨_, resolve_given h1⟩
  | false =>
    have h2 : truthy (e.vars envName) = true := by
      simpa [fallsThrough, h1] using h
    exact ⟨_, resolve_env h1 h2⟩

/-- A resolution that falls through to an unreadable file raises the
compatibility `CredentialsNotFoundError` with its fixed message. -/
lemma resolve_cnf_exact {e : Env} {given : Option String} {envName : String}
    (optName : String) (h : fallsThrough e given envName = true)
    (hf : e.files (credentialsPath e) = none) :
    resolveCredential e given envName optName =
      .error (.credentialsNotFound
        "Could not find credentials in the environment or filesystem") := by
  obtain ⟨h1, h2⟩ := fallsThrough_iff.mp h
  rw [resolve_fileBranch h1 h2]
  simp [load_shared_credentials, hf]

/-- A resolution that falls through to a readable file is that file's
`get("default", optName)`. -/
lemma resolve_get_of_readable {e : Env} {given : Option String} {envName : String}
    (optName : String) {cfg : IniFile} (h : fallsThrough e given envName = true)
    (hf : e.files (credentialsPath e) = some cfg) :
    resolveCredential e given envName optName = cfg.get "default" optName := by
  obtain ⟨h1, h2⟩ := fallsThrough_iff.mp h
  rw [resolve_fileBranch h1 h2]
  simp [load_shared_credentials, hf]

/-- One resolution raises `CredentialsNotFoundError` exactly when it falls
through to the file and the file is unreadable. -/
lemma resolve_cnf_iff (e : Env) (given : Option String) (envName optName : String) :
    (∃ msg, resolveCredential e given envName optName =
        .error (.credentialsNotFound msg)) ↔
      (fallsThrough e given envName = true ∧
        e.files (credentialsPath e) = none) := by
  cases h1 : truthy given with
  | true => simp [resolve_given h1, fallsThrough, h1]
  | false =>
    cases h2 : truthy (e.vars envName) with
    | true => simp [resolve_env h1 h2, fallsThrough, h1, h2]
    | false =>
      rw [resolve_fileBranch h1 h2]
      cases hf : e.files (credentialsPath e) with
      | none => simp [load_shared_credentials, hf, fallsThrough, h1, h2]
      | some cfg =>
        simp [load_shared_credentials, hf, fallsThrough, h1, h2,
          get_ne_credentialsNotFound]

/-- `AWSCredentials` construction raises `CredentialsNotFoundError` exactly
when one of the two keys falls through to the shared credentials file and
that file is unreadable. -/
lemma make_cnf_iff (e : Env) (a s : Option String) :
    (∃ msg, AWSCredentials.make e a s = .error (.credentialsNotFound msg)) ↔
      (e.files (credentialsPath e) = none ∧
        (fallsThrough e a ENV_ACCESS_KEY = true ∨
          fallsThrough e s ENV_SECRET_KEY = true)) := by
  constructor
  · rintro ⟨msg, hmk⟩
    unfold AWSCredentials.make at hmk
    cases hA : resolveCredential e a ENV_ACCESS_KEY "aws_access_key_id" with
    | error err =>
      rw [hA] at hmk
      simp only at hmk
      have herr : err = .credentialsNotFound msg := by injection hmk
      obtain ⟨hfa, hfn⟩ := (resolve_cnf_iff e a ENV_ACCESS_KEY "aws_access_key_id").mp
        ⟨msg, by rw [hA, herr]⟩
      exact ⟨hfn, Or.inl hfa⟩
    | ok v =>
      rw [hA] at hmk
      simp only at hmk
      cases hS : resolveCredential e s ENV_SECRET_KEY "aws_secret_access_key" with
      | error err =>
        rw [hS] at hmk
        simp only at hmk
        have herr : err = .credentialsNotFound msg := by injection hmk
        obtain ⟨hfs, hfn⟩ := (resolve_cnf_iff e s ENV_SECRET_KEY "aws_secret_access_key").mp
          ⟨msg, by rw [hS, herr]⟩
        exact ⟨hfn, Or.inr hfs⟩
      | ok w =>
        rw [hS] at hmk
        simp at hmk
  · rintro ⟨hf, hA | hS⟩
    · refine ⟨"Could not find credentials in the environment or filesystem", ?_⟩
      unfold AWSCredentials.make
      rw [resolve_cnf_exact "aws_access_key_id" hA hf]
    · by_cases hA : fallsThrough e a ENV_ACCESS_KEY = true
      · refine ⟨"Could not find credentials in the environment or filesystem", ?_⟩
        unfold AWSCredentials.make
        rw [resolve_cnf_exact "aws_access_key_id" hA hf]
      · obtain ⟨v, hv⟩ := resolve_ok_of_not_falls "aws_access_key_id"
          (Bool.eq_false_iff.mpr fun h => hA h)
        refine ⟨"Could not find credentials in the environment or filesystem", ?_⟩
        unfold AWSCredentials.make
        rw [hv, resolve_cnf_exact "aws_secret_access_key" hS hf]

/-!
Concrete process states used as counterexamples and witnesses.
-/

/-- Process state where the unprefixed variable name the spec mentions is
set, the `AWS_`-prefixed variables the code reads are not, and no
credentials file is readable. -/
def e0 : Env :=
  { vars := fun n => if n == "ACCESS_KEY_ID" then some "from-env" else none,
    files := fun _ => none }

/-- Process state where both `AWS_`-prefixed variables are set and no
credentials file is readable. -/
def eW : Env :=
  { vars := fun n =>
      if n == "AWS_ACCESS_KEY_ID" then some "AKenv"
      else if n == "AWS_SECRET_ACCESS_KEY" then some "SKenv"
      else none,
    files := fun _ => none }

/-- Process state with no environment variables and a readable but empty
credentials file at the default path. -/
def e1 : Env :=
  { vars := fun _ => none,
    files := fun p => if p == "~/.aws/credentials" then some ⟨[]⟩ else none }

/-- Process state with no environment variables and no readable credentials
file. -/
def e2 : Env :=
  { vars := fun _ => none, files := fun _ => none }

/-- Process state where the access key comes from the environment and the
secret key only from the shared credentials file. -/
def e3 : Env :=
  { vars := fun n => if n == "AWS_ACCESS_KEY_ID" then some "AKenv" else none,
    files := fun p =>
      if p == "~/.aws/credentials" then
        some ⟨[("default", [("aws_secret_access_key", "SKfile")])]⟩
      else none }

/-- C1, as stated, is false at a concrete input: with `ACCESS_KEY_ID` (the
spec's unprefixed variable name) set non-empty and everything else absent,
construction does not use it and fails, because the code reads
`AWS_ACCESS_KEY_ID`. -/
theorem txaws_C1_counterexample :
    e0.vars "ACCESS_KEY_ID" = some "from-env" ∧
    AWSCredentials.make e0 (some "") (some "") =
      .error (.credentialsNotFound
        "Could not find credentials in the environment or filesystem") :=
  ⟨rfl, rfl⟩

/-- C1 (amended): credential resolution follows the priority order — a
truthy explicit constructor argument is used as-is; otherwise the
environment variable (`AWS_ACCESS_KEY_ID` / `AWS_SECRET_ACCESS_KEY`) is
consulted; when that is also absent or empty the value is read from the
`default` section of the shared credentials file, whose path is the value
of `AWS_SHARED_CREDENTIALS_FILE` and defaults to `~/.aws/credentials`; the
constructor resolves the access key and then the secret key exactly this
way. -/
theorem txaws_C1 (e : Env) (g a s : Option String) (envName optName : String) :
    (truthy g = true → resolveCredential e g envName optName = .ok (g.getD "")) ∧
    (truthy g = false → truthy (e.vars envName) = true →
      resolveCredential e g envName optName = .ok ((e.vars envName).getD "")) ∧
    (truthy g = false → truthy (e.vars envName) = false →
      resolveCredential e g envName optName =
        match load_shared_credentials e with
        | .error err => .error err
        | .ok config => config.get "default" optName) ∧
    (credentialsPath e =
      (e.vars "AWS_SHARED_CREDENTIALS_FILE").getD "~/.aws/credentials") ∧
    (AWSCredentials.make e a s =
      match resolveCredential e a "AWS_ACCESS_KEY_ID" "aws_access_key_id" with
      | .error err => .error err
      | .ok ak =>
        match resolveCredential e s "AWS_SECRET_ACCESS_KEY" "aws_secret_access_key" with
        | .error err => .error err
        | .ok sk => .ok ⟨ak, sk⟩) :=
  ⟨fun h => resolve_given h,
   fun h1 h2 => resolve_env h1 h2,
   fun h1 h2 => resolve_fileBranch h1 h2,
   rfl, rfl⟩

/-- C1 witness: with `AWS_ACCESS_KEY_ID`/`AWS_SECRET_ACCESS_KEY` set, the
environment branch of the priority order yields both keys. -/
theorem txaws_C1_witness :
    resolveCredential eW none "AWS_ACCESS_KEY_ID" "aws_access_key_id" = .ok "AKenv" ∧
    AWSCredentials.make eW none none = .ok ⟨"AKenv", "SKenv"⟩ := by
  have h := txaws_C1 eW none none none "AWS_ACCESS_KEY_ID" "aws_access_key_id"
  exact ⟨h.2.1 rfl rfl, h.2.2.2.2.trans rfl⟩

/-- C4, as stated, is false at a concrete input: with no explicit arguments,
no environment variables, and a readable credentials file that lacks the
`default` section, none of the three sources yields a value, yet
construction fails with the configparser's `NoSectionError`, which is not a
`CredentialsNotFoundError`. -/
theorem txaws_C4_counterexample :
    fallsThrough e1 (some "") ENV_ACCESS_KEY = true ∧
    fallsThrough e1 (some "") ENV_SECRET_KEY = true ∧
    e1.files (credentialsPath e1) = some ⟨[]⟩ ∧
    AWSCredentials.make e1 (some "") (some "") = .error (.noSection "default") ∧
    PyClass.isSubclass (PyError.noSection "default").cls .CredentialsNotFoundError
      = false :=
  ⟨rfl, rfl, rfl, rfl, rfl⟩

/-- C4 (amended): construction fails with `CredentialsNotFoundError` exactly
when some required key is yielded by neither its constructor argument nor
its environment variable and the shared credentials file is unreadable;
when the file is readable but lacks the section or key, the config parser's
own error propagates instead. -/
theorem txaws_C4_amended (e : Env) (a s : Option String) :
    (∃ msg, AWSCredentials.make e a s = .error (.credentialsNotFound msg)) ↔
      (e.files (credentialsPath e) = none ∧
        (fallsThrough e a ENV_ACCESS_KEY = true ∨
          fallsThrough e s ENV_SECRET_KEY = true)) :=
  make_cnf_iff e a s

/-- C4 witness: with every source empty and no readable file, construction
does fail with `CredentialsNotFoundError`. -/
theorem txaws_C4_witness :
    ∃ msg, AWSCredentials.make e2 (some "") (some "") =
      .error (.credentialsNotFound msg) :=
  (txaws_C4_amended e2 (some "") (some "")).mpr ⟨rfl, Or.inl rfl⟩

/-- C5: `sign` returns the HMAC-SHA256 signature for hash type `sha256`,
the HMAC-SHA1 signature for `sha1`, and for every other hash type raises a
`RuntimeError`-class condition without returning a signature. -/
theorem txaws_C5 (c : AWSCredentials) (bytes : List Nat) (hash_type : String) :
    (c.sign bytes "sha256" = .ok (hmac_sha256 c.secret_key bytes)) ∧
    (c.sign bytes "sha1" = .ok (hmac_sha1 c.secret_key bytes)) ∧
    (hash_type ≠ "sha256" → hash_type ≠ "sha1" →
      c.sign bytes hash_type =
        .error (.runtimeError ("Unsupported hash type: " ++ hash_type)) ∧
      (PyError.runtimeError ("Unsupported hash type: " ++ hash_type)).cls.isSubclass
        .RuntimeError = true) := by
  refine ⟨rfl, rfl, fun h1 h2 => ⟨?_, rfl⟩⟩
  simp [AWSCredentials.sign, h1, h2]

/-- C5 witness: signing with hash type `md5` raises the `RuntimeError`-class
condition. -/
theorem txaws_C5_witness :
    AWSCredentials.sign ⟨"AKenv", "SKenv"⟩ (strBytes "payload") "md5" =
      .error (.runtimeError ("Unsupported hash type: " ++ "md5")) ∧
    (PyError.runtimeError ("Unsupported hash type: " ++ "md5")).cls.isSubclass
      .RuntimeError = true :=
  (txaws_C5 ⟨"AKenv", "SKenv"⟩ (strBytes "payload") "md5").2.2
    (by decide) (by decide)

/-- C8: whenever construction fails with the missing-credentials error, the
raised class is the compatibility subclass, which an
`except CredentialsNotFoundError` clause and an `except ValueError` clause
each catch. -/
theorem txaws_C8 (e : Env) (a s : Option String) (msg : String)
    (_h : AWSCredentials.make e a s = .error (.credentialsNotFound msg)) :
    (PyError.credentialsNotFound msg).cls = .CompatCredentialsNotFoundError ∧
    PyClass.isSubclass (PyError.credentialsNotFound msg).cls
      .CredentialsNotFoundError = true ∧
    PyClass.isSubclass (PyError.credentialsNotFound msg).cls .ValueError = true :=
  ⟨rfl, rfl, rfl⟩

/-- C8 witness: the missing-credentials failure raised at a concrete empty
process state is caught by both exception classes. -/
theorem txaws_C8_witness :
    PyClass.isSubclass PyClass.CompatCredentialsNotFoundError
      .CredentialsNotFoundError = true ∧
    PyClass.isSubclass PyClass.CompatCredentialsNotFoundError .ValueError = true := by
  have h := txaws_C8 e2 (some "") (some "")
    "Could not find credentials in the environment or filesystem" rfl
  exact ⟨h.2.1, h.2.2⟩

/-- C9: an explicitly passed empty string is treated the same as an absent
(`None`) argument, and the two keys are resolved independently — the access
key may come from the environment while the secret key comes from the
shared credentials file. -/
theorem txaws_C9 (e : Env) (a s : Option String) (ak sk : String) :
    (AWSCredentials.make e (some "") s = AWSCredentials.make e none s) ∧
    (AWSCredentials.make e a (some "") = AWSCredentials.make e a none) ∧
    (∀ cfg : IniFile, e.vars ENV_ACCESS_KEY = some ak → ak ≠ "" →
      truthy (e.vars ENV_SECRET_KEY) = false →
      load_shared_credentials e = .ok cfg →
      cfg.get "default" "aws_secret_access_key" = .ok sk →
      AWSCredentials.make e (some "") (some "") = .ok ⟨ak, sk⟩) := by
  refine ⟨rfl, rfl, ?_⟩
  intro cfg hak hne hsec hload hget
  have h1 : truthy (some "" : Option String) = false := rfl
  have hta : truthy (e.vars ENV_ACCESS_KEY) = true := by
    rw [hak]; simp [truthy, hne]
  unfold AWSCredentials.make
  rw [resolve_env h1 hta, resolve_fileBranch h1 hsec, hak, hload]
  simp [hget]

/-- C9 witness: at a concrete process state the access key resolves from
`AWS_ACCESS_KEY_ID` while the secret key resolves from the shared
credentials file. -/
theorem txaws_C9_witness :
    AWSCredentials.make e3 (some "") (some "") = .ok ⟨"AKenv", "SKfile"⟩ :=
  (txaws_C9 e3 (some "") (some "") "AKenv" "SKfile").2.2
    ⟨[("default", [("aws_secret_access_key", "SKfile")])]⟩
    rfl (by decide) rfl rfl rfl

/-- C10: `CredentialsNotFoundError` is raised only when the shared
credentials file cannot be read at all; with a readable file lacking the
`default` section construction raises `NoSectionError`, and with a readable
file whose `default` section lacks the needed key it raises
`NoOptionError`. -/
theorem txaws_C10 (e : Env) (a s : Option String) :
    (∀ (cfg : IniFile) (msg : String), e.files (credentialsPath e) = some cfg →
      AWSCredentials.make e a s ≠ .error (.credentialsNotFound msg)) ∧
    (∀ cfg : IniFile, fallsThrough e a ENV_ACCESS_KEY = true →
      e.files (credentialsPath e) = some cfg →
      cfg.sections.find? (fun p => p.1 == "default") = none →
      AWSCredentials.make e a s = .error (.noSection "default")) ∧
    (∀ (cfg : IniFile) (name : String) (opts : List (String × String)),
      fallsThrough e a ENV_ACCESS_KEY = true →
      e.files (credentialsPath e) = some cfg →
      cfg.sections.find? (fun p => p.1 == "default") = some (name, opts) →
      opts.find? (fun q => q.1 == "aws_access_key_id") = none →
      AWSCredentials.make e a s = .error (.noOption "default" "aws_access_key_id")) := by
  refine ⟨?_, ?_, ?_⟩
  · intro cfg msg hf hmk
    obtain ⟨hnone, _⟩ := (make_cnf_iff e a s).mp ⟨msg, hmk⟩
    rw [hf] at hnone
    exact Option.noConfusion hnone
  · intro cfg hfalls hf hsect
    unfold AWSCredentials.make
    rw [resolve_get_of_readable "aws_access_key_id" hfalls hf]
    have hget : cfg.get "default" "aws_access_key_id" =
        .error (.noSection "default") := by
      simp [IniFile.get, hsect]
    rw [hget]
  · intro cfg name opts hfalls hf hsect hopt
    unfold AWSCredentials.make
    rw [resolve_get_of_readable "aws_access_key_id" hfalls hf]
    have hget : cfg.get "default" "aws_access_key_id" =
        .error (.noOption "default" "aws_access_key_id") := by
      simp [IniFile.get, hsect, hopt]
    rw [hget]

/-- C10 witness: a readable but empty credentials file yields
`NoSectionError`, not `CredentialsNotFoundError`. -/
theorem txaws_C10_witness :
    AWSCredentials.make e1 (some "") (some "") = .error (.noSection "default") :=
  (txaws_C10 e1 (some "") (some "")).2.1 ⟨[]⟩ rfl rfl rfl

/-- Endpoint of the staged verification test: https scheme, host
`example.com`, no explicit port, hostname verification enabled. -/
def epW : AWSServiceEndpoint :=
  { scheme := .https, host := "example.com", port := none,
    ssl_hostname_verification := true }

/-- C2: for an https endpoint with hostname verification enabled and a
non-empty trust store, the connection factory returns a verifying connector
whose context factory is bound to the endpoint's host and carries the trust
store's non-empty certificate set, and the port defaults to 443 when not
explicit in the endpoint. -/
theorem txaws_C2 (ep : AWSServiceEndpoint) (caCerts : List Certificate)
    (h1 : ep.scheme = .https) (h2 : ep.ssl_hostname_verification = true)
    (h3 : caCerts ≠ []) :
    connect caCerts ep = .verifying ep.host (resolvePort ep) ⟨ep.host, caCerts⟩ ∧
    (VerifyingContextFactory.mk ep.host caCerts).host = ep.host ∧
    (VerifyingContextFactory.mk ep.host caCerts).caCerts ≠ [] ∧
    (ep.port = none → resolvePort ep = 443) := by
  refine ⟨?_, rfl, h3, ?_⟩
  · obtain ⟨sc, host, port, flag⟩ := ep
    dsimp only at h1 h2 ⊢
    subst h1
    subst h2
    rfl
  · intro hp
    simp [resolvePort, hp, h1, defaultPort]

/-- C2 witness: the endpoint of the staged test with a one-certificate
trust store connects through a verifying context factory bound to
`example.com` on port 443. -/
theorem txaws_C2_witness :
    connect ["ca-certificate"] epW =
      .verifying "example.com" 443 ⟨"example.com", ["ca-certificate"]⟩ ∧
    resolvePort epW = 443 := by
  have h := txaws_C2 epW ["ca-certificate"] rfl rfl (by decide)
  exact ⟨h.1, h.2.2.2 rfl⟩

/-- C3: the error normalizer treats an HTTP status 204 failure as a
successful completion, 204 is the only HTTP status it so treats, and every
non-HTTP failure kind normalizes to an error. -/
theorem txaws_C3 (code : Nat) (message cause : String) :
    ((error_wrapper (.httpStatus 204 message)).isSuccess = true) ∧
    ((error_wrapper (.httpStatus code message)).isSuccess = true → code = 204) ∧
    ((error_wrapper (.connectionRefused cause)).isSuccess = false) ∧
    ((error_wrapper (.ioTimeout cause)).isSuccess = false) ∧
    ((error_wrapper (.tlsRejected cause)).isSuccess = false) ∧
    ((error_wrapper (.transportFailure cause)).isSuccess = false) := by
  refine ⟨rfl, ?_, rfl, rfl, rfl, rfl⟩
  intro h
  by_cases h204 : code = 204
  · exact h204
  · exfalso
    by_cases hr : 300 ≤ code ∧ code ≤ 599
    · simp [error_wrapper, h204, hr, Outcome.isSuccess] at h
    · simp [error_wrapper, h204, hr, Outcome.isSuccess] at h

/-- C3 witness: the staged test's 204 failure normalizes to the successful
completion value `204 No content`. -/
theorem txaws_C3_witness :
    error_wrapper (.httpStatus 204 "No content") = .success "204 No content" ∧
    (error_wrapper (.httpStatus 204 "No content")).isSuccess = true := by
  refine ⟨by decide, (txaws_C3 204 "No content" "").1⟩

/-- C6: an HTTP status failure in 300–599 other than 204 normalizes to
`HttpStatusError{code, message}` whose string rendering matches the
original failure's rendering, `<code> <message>`. -/
theorem txaws_C6 (code : Nat) (message : String)
    (h1 : 300 ≤ code) (h2 : code ≤ 599) (h3 : code ≠ 204) :
    error_wrapper (.httpStatus code message) = .httpStatusError code message ∧
    (error_wrapper (.httpStatus code message)).render =
      (AWSFailure.httpStatus code message).render ∧
    (AWSFailure.httpStatus code message).render = toString code ++ " " ++ message := by
  refine ⟨?_, ?_, rfl⟩
  · simp [error_wrapper, h3, h1, h2]
  · simp [error_wrapper, h3, h1, h2, Outcome.render, AWSFailure.render]

/-- C6 witness: the staged test's 500 failure normalizes to an error
rendering as `500 internal error`. -/
theorem txaws_C6_witness :
    error_wrapper (.httpStatus 500 "internal error") =
      .httpStatusError 500 "internal error" ∧
    (error_wrapper (.httpStatus 500 "internal error")).render =
      "500 internal error" := by
  have h := txaws_C6 500 "internal error" (by decide) (by decide) (by decide)
  exact ⟨h.1, h.2.1.trans (h.2.2.trans (by decide))⟩

/-- C7: a freshly constructed query's request-header and response-header
accessors both return the absence value, and after the exchange completes
they return the captured headers. -/
theorem txaws_C7 (action creds endpoint : String) (m : ResponseMetadata) :
    (BaseQuery.make action creds endpoint).get_request_headers = none ∧
    (BaseQuery.make action creds endpoint).get_response_headers = none ∧
    ((BaseQuery.make action creds endpoint).complete m).get_request_headers =
      some m.request_headers ∧
    ((BaseQuery.make action creds endpoint).complete m).get_response_headers =
      some m.response_headers :=
  ⟨rfl, rfl, rfl, rfl⟩
